import Mathlib

/-!
Verification of the TAIFA-FIALA collection & extraction pipeline.

This file gives a shallow embedding, in Lean 4, of the core pipeline code in
`backend/etl/intelligence/enhanced_crawl4ai.py` and
`backend/etl/intelligence/perplexity_african_ai.py`: the data model
(`InnovationExtractionResult`, `CollectionTarget`, `CollectionCycleResult`),
the completeness / confidence scorers, the validation-flag generator, the
pattern-data merge, the target prioritizer, the extraction queue with
exception isolation, the quality gates, and the statistics endpoints.

Conventions of the embedding:
- Python floats are idealized as rationals (`ℚ`); all score arithmetic in the
  source is on small decimal literals, so this is exact.
- Python truthiness is modelled explicitly: an optional string is truthy iff
  it is `some s` with `s ≠ ""`; a list or dict is truthy iff non-empty.
- Python dicts appearing in the data (contact information, stats output) are
  modelled as association lists.
- Python's `sorted(xs, key=k)` is modelled by a stable insertion sort
  (`pySorted`) over the strict key comparison, which is extensionally the
  sort Python performs.
- Python's `a / b` (which raises `ZeroDivisionError` on `b = 0`) is modelled
  as `pyDiv : ℚ → ℚ → Option ℚ` returning `none` on a zero divisor.
- Exceptions are modelled with `Except String`.

Both source files contain a scorer section and the repository contains two
orchestrator variants (a full one and a simplified one) inside
`enhanced_crawl4ai.py`; they are embedded in the namespaces
`PerplexityAfricanAI`, `EnhancedCrawl4AI`, `Orchestrator` (the full
`DataCollectionOrchestrator`) and `SimpleOrchestrator` (the simplified
variant at the end of the file).
-/

namespace TaifaFiala

/-- `ContentType` enum of the pipeline. -/
inductive ContentType where
  | research_paper
  | academic_profile
  | github_repository
  | startup_profile
  | news_article
  | innovation_profile
deriving DecidableEq, Repr

/-- `PriorityLevel` enum of the pipeline: URGENT > HIGH > MEDIUM > LOW > BATCH. -/
inductive PriorityLevel where
  | urgent
  | high
  | medium
  | low
  | batch
deriving DecidableEq, Repr

/-- `CollectorType` enum of the pipeline. -/
inductive CollectorType where
  | academic_discovery
  | innovation_discovery
  | news_monitoring
  | community_signals
  | intelligence_synthesis
deriving DecidableEq, Repr

/-- A Python value stored in the `contact_information` dict: the source stores
`None`, strings, and lists of strings there. -/
inductive ContactVal where
  | pyNone
  | pyStr (s : String)
  | pyList (l : List String)
deriving DecidableEq, Repr

/-- Python truthiness of a contact-information value. -/
def ContactVal.truthy : ContactVal → Bool
  | .pyNone => false
  | .pyStr s => !(s == "")
  | .pyList l => !l.isEmpty

/-- Python truthiness of an optional string field (`None` and `""` are falsy). -/
def optStrTruthy : Option String → Bool
  | Option.none => false
  | some s => !(s == "")

/-- A creator entry: the source builds dicts `{'name': ..., 'role': ...}`. -/
structure Creator where
  name : String
  role : String
deriving DecidableEq, Repr

/-- A funding source entry: the source builds dicts `{'name': ...}`. -/
structure FundingSource where
  name : String
deriving DecidableEq, Repr

/-- The structured record produced by one extraction
(dataclass `InnovationExtractionResult`).  Optional scalar fields are
`Option String` (default `None`); sequence/dict fields default to empty, which
models Python's falsy `None`/`[]`/`{}` defaults uniformly through truthiness. -/
structure InnovationExtractionResult where
  url : String
  content_type : ContentType
  success : Bool := true
  title : Option String := Option.none
  description : Option String := Option.none
  innovation_type : Option String := Option.none
  problem_solved : Option String := Option.none
  technical_approach : Option String := Option.none
  development_stage : Option String := Option.none
  technical_stack : List String := []
  creators : List Creator := []
  organization_affiliation : Option String := Option.none
  location : Option String := Option.none
  contact_information : List (String × ContactVal) := []
  use_cases : List String := []
  funding_sources : List FundingSource := []
  funding_amounts : List String := []
  recognition : List String := []
  source_links : List String := []
  data_completeness_score : ℚ := 0
  confidence_score : ℚ := 0
  validation_flags : List String := []
deriving DecidableEq, Repr

/-- A candidate awaiting extraction (dataclass `CollectionTarget`).
`discovered_at` is the discovery timestamp (`datetime.now()`), modelled as a
natural number; the mutable `extraction_result` / `processed_at` slots are
attached after processing and play no role in the verified operations. -/
structure CollectionTarget where
  id : String
  url : String
  content_type : ContentType
  priority : PriorityLevel
  source_collector : CollectorType
  metadata : List (String × String) := []
  discovered_at : ℕ
deriving DecidableEq, Repr

/-- Truthiness of each of the four core fields, in source order
(`title`, `description`, `innovation_type`, `problem_solved`). -/
def coreFieldsFilled (r : InnovationExtractionResult) : List Bool :=
  [optStrTruthy r.title, optStrTruthy r.description,
   optStrTruthy r.innovation_type, optStrTruthy r.problem_solved]

/-- Truthiness of each of the nine standard fields, in source order.
For the sequence/dict fields the source re-checks non-emptiness after the
truthiness test, which is redundant in Python and collapses here. -/
def standardFieldsFilled (r : InnovationExtractionResult) : List Bool :=
  [optStrTruthy r.technical_approach, optStrTruthy r.development_stage,
   !r.technical_stack.isEmpty, !r.creators.isEmpty,
   optStrTruthy r.organization_affiliation, optStrTruthy r.location,
   !r.contact_information.isEmpty, !r.use_cases.isEmpty,
   !r.funding_sources.isEmpty]

/-- Whether `p` is a leading segment of `s` (character lists). -/
def charsHasPre : List Char → List Char → Bool
  | [], _ => true
  | _ :: _, [] => false
  | a :: p1, b :: s1 => a == b && charsHasPre p1 s1

/-- Whether `needle` occurs contiguously inside `hay` (character lists). -/
def charsContains (hay needle : List Char) : Bool :=
  match hay with
  | [] => needle.isEmpty
  | _ :: t => charsHasPre needle hay || charsContains t needle

/-- Python's substring test `needle in hay` on strings. -/
def pyInStr (needle hay : String) : Bool :=
  charsContains hay.toList needle.toList

/-- The allow-list used by both confidence scorers:
`['South Africa', 'Nigeria', 'Kenya', 'Ghana']`. -/
def confidenceCountries : List String :=
  ["South Africa", "Nigeria", "Kenya", "Ghana"]

/-- The guard `result.location and any(country in result.location for country in [...])`
shared by both confidence scorers. -/
def locationNamesAllowListedCountry (r : InnovationExtractionResult) : Bool :=
  optStrTruthy r.location &&
    confidenceCountries.any (fun country =>
      match r.location with
      | Option.none => false
      | some loc => pyInStr country loc)

/-- The guard `result.contact_information and any(result.contact_information.values())`
shared by both confidence scorers and the flag generator. -/
def contactInfoPopulated (r : InnovationExtractionResult) : Bool :=
  !r.contact_information.isEmpty &&
    r.contact_information.any (fun kv => kv.2.truthy)

/-- The dict produced by `_pattern_based_extraction`: each key is present
(`some`) exactly when the corresponding regex found at least one match.
`enhanced_crawl4ai.py` only ever sets the `emails`, `urls`, `funding_amounts`
and `african_locations` keys; the perplexity_african_ai.py copy additionally
sets `github_repos` and `linkedin_profiles`. -/
structure PatternData where
  emails : Option (List String) := Option.none
  urls : Option (List String) := Option.none
  funding_amounts : Option (List String) := Option.none
  github_repos : Option (List String) := Option.none
  linkedin_profiles : Option (List String) := Option.none
  african_locations : Option (List String) := Option.none
deriving DecidableEq, Repr

/-- Python dict assignment `d[k] = v` on an association list: overwrite the
binding when the key exists, append it otherwise. -/
def dictSet (d : List (String × ContactVal)) (k : String) (v : ContactVal) :
    List (String × ContactVal) :=
  if d.any (fun kv => kv.1 == k) then
    d.map (fun kv => if kv.1 == k then (k, v) else kv)
  else
    d ++ [(k, v)]

/-- Insert `x` into an already-sorted list, placing it before the first
element `y` that is not strictly below it (`lt y x = false`).  Because ties
fall into the `else` branch, an element being inserted goes in front of
key-equal elements already present, which is exactly what makes `pySorted`
stable when the input is consumed from the left. -/
def insertStable (lt : α → α → Bool) (x : α) : List α → List α
  | [] => [x]
  | y :: ys => if lt y x then y :: insertStable lt x ys else x :: y :: ys

/-- Model of Python's stable `sorted(xs, key=k)`: `lt` is the strict
comparison of keys (`k a < k b`).  Elements with equal keys keep their input
order, matching CPython's stable sort. -/
def pySorted (lt : α → α → Bool) : List α → List α
  | [] => []
  | x :: xs => insertStable lt x (pySorted lt xs)

/-- `priority_order` dict used by both `_prioritize_targets` versions:
URGENT→0, HIGH→1, MEDIUM→2, LOW→3, BATCH→4. -/
def priority_order : PriorityLevel → ℕ
  | .urgent => 0
  | .high => 1
  | .medium => 2
  | .low => 3
  | .batch => 4

/-- Python's `a / b` on (idealized) floats: raises `ZeroDivisionError` on a
zero divisor, modelled as `none`. -/
def pyDiv (a b : ℚ) : Option ℚ :=
  if b = 0 then Option.none else some (a / b)

/-- Dataclass `CollectionCycleResult` (fields as read by the full
orchestrator: `get_collection_stats` uses `next_cycle_recommendations`). -/
structure CollectionCycleResult where
  cycle_id : String
  targets_discovered : ℕ
  targets_processed : ℕ
  innovations_extracted : ℕ
  database_records_created : ℕ := 0
  errors_encountered : List String := []
  next_cycle_recommendations : List String := []
deriving DecidableEq, Repr

/-- A value appearing in the stats dicts returned by
`get_collection_stats` / `get_stats`. -/
inductive StatVal where
  | str (s : String)
  | nat (n : ℕ)
  | rat (q : ℚ)
  | strList (l : List String)
  | obj (fields : List (String × StatVal))
deriving Repr

end TaifaFiala

namespace TaifaFiala.PerplexityAfricanAI

open TaifaFiala

/-- `_calculate_completeness_score` (perplexity_african_ai.py, lines 596-627):
core fields weigh 2, standard fields weigh 1; the score is
`filled_fields / total_fields` guarded by `if total_fields > 0 else 0.0`. -/
def _calculate_completeness_score (r : InnovationExtractionResult) : ℚ :=
  let total_fields : ℕ := 2 * (coreFieldsFilled r).length + (standardFieldsFilled r).length
  let filled_fields : ℕ := 2 * ((coreFieldsFilled r).count true) + ((standardFieldsFilled r).count true)
  if 0 < total_fields then (filled_fields : ℚ) / (total_fields : ℚ) else 0

/-- `_calculate_confidence_score` (perplexity_african_ai.py, lines 629-654).
`extracted_content` models the truthiness of
`hasattr(crawl_result, 'extracted_content') and crawl_result.extracted_content`,
i.e. whether the structured LLM extraction produced content. -/
def _calculate_confidence_score (r : InnovationExtractionResult)
    (extracted_content : Bool) : ℚ :=
  let confidence : ℚ := 1/2
  let confidence := if extracted_content then confidence + 1/5 else confidence
  let confidence := if contactInfoPopulated r then confidence + 1/10 else confidence
  let confidence := if locationNamesAllowListedCountry r then confidence + 3/20 else confidence
  let confidence :=
    if !r.technical_stack.isEmpty && decide (1 < r.technical_stack.length)
    then confidence + 1/10 else confidence
  let confidence :=
    if !r.funding_sources.isEmpty || !r.funding_amounts.isEmpty
    then confidence + 1/10 else confidence
  min 1 confidence

/-- `_generate_validation_flags` (perplexity_african_ai.py, lines 656-683).
The funding-flag guard is written `if result.funding_amounts but not
result.funding_sources:` in the source — a syntax slip for `and not`, which is
what the surrounding comment (`Flag unverified funding claims`) intends and
what is embedded here. -/
def _generate_validation_flags (r : InnovationExtractionResult) : List String :=
  (if !optStrTruthy r.title then
    ["Missing title - manual verification needed"] else []) ++
  (if !optStrTruthy r.description then
    ["Missing description - may need additional sources"] else []) ++
  (if !optStrTruthy r.location then
    ["No African location identified - verify geographic relevance"] else []) ++
  (if !contactInfoPopulated r then
    ["No contact information found - outreach may be difficult"] else []) ++
  (if !r.funding_amounts.isEmpty && r.funding_sources.isEmpty then
    ["Funding amounts mentioned without sources - verify claims"] else []) ++
  (if !optStrTruthy r.technical_approach && r.technical_stack.isEmpty then
    ["Limited technical details - may need deeper investigation"] else [])

/-- `_merge_pattern_data` (perplexity_african_ai.py, lines 493-523): merges the
pattern-extraction dict into the result.  Contact keys (`email`, `github`,
`linkedin`) are assigned unconditionally whenever present in the pattern data;
`funding_amounts` and `location` are filled only when previously falsy;
`source_links` is extended with every extracted URL. -/
def _merge_pattern_data (r : InnovationExtractionResult) (p : PatternData) :
    InnovationExtractionResult :=
  let ci := r.contact_information
  let ci := match p.emails with
    | Option.none => ci
    | some es => dictSet ci "email"
        (match es.head? with
         | some e => ContactVal.pyStr e
         | Option.none => ContactVal.pyNone)
  let ci := match p.github_repos with
    | Option.none => ci
    | some gs => dictSet ci "github" (ContactVal.pyList gs)
  let ci := match p.linkedin_profiles with
    | Option.none => ci
    | some ls => dictSet ci "linkedin" (ContactVal.pyList ls)
  let fa := match p.funding_amounts with
    | Option.none => r.funding_amounts
    | some amounts =>
        if r.funding_amounts.isEmpty then amounts else r.funding_amounts
  let loc := match p.african_locations with
    | Option.none => r.location
    | some locs =>
        if optStrTruthy r.location then r.location else locs.head?
  let sl := match p.urls with
    | Option.none => r.source_links
    | some us => r.source_links ++ us
  { r with contact_information := ci, funding_amounts := fa,
           location := loc, source_links := sl }

end TaifaFiala.PerplexityAfricanAI

namespace TaifaFiala.EnhancedCrawl4AI

open TaifaFiala

/-- `_calculate_completeness_score` (enhanced_crawl4ai.py, lines 215-246);
textually identical to the perplexity_african_ai.py copy. -/
def _calculate_completeness_score (r : InnovationExtractionResult) : ℚ :=
  let total_fields : ℕ := 2 * (coreFieldsFilled r).length + (standardFieldsFilled r).length
  let filled_fields : ℕ := 2 * ((coreFieldsFilled r).count true) + ((standardFieldsFilled r).count true)
  if 0 < total_fields then (filled_fields : ℚ) / (total_fields : ℚ) else 0

/-- `_calculate_confidence_score` (enhanced_crawl4ai.py, lines 248-265).
Unlike the perplexity_african_ai.py copy, this version stops after the
African-relevance boost: it has no technical-stack boost and no funding
boost. -/
def _calculate_confidence_score (r : InnovationExtractionResult)
    (extracted_content : Bool) : ℚ :=
  let confidence : ℚ := 1/2
  let confidence := if extracted_content then confidence + 1/5 else confidence
  let confidence := if contactInfoPopulated r then confidence + 1/10 else confidence
  let confidence := if locationNamesAllowListedCountry r then confidence + 3/20 else confidence
  min 1 confidence

/-- `_generate_validation_flags` (enhanced_crawl4ai.py, lines 267-282).
Unlike the perplexity_african_ai.py copy, this version emits only the first
three flags (missing title, missing description, missing location). -/
def _generate_validation_flags (r : InnovationExtractionResult) : List String :=
  (if !optStrTruthy r.title then
    ["Missing title - manual verification needed"] else []) ++
  (if !optStrTruthy r.description then
    ["Missing description - may need additional sources"] else []) ++
  (if !optStrTruthy r.location then
    ["No African location identified - verify geographic relevance"] else [])

/-- `_merge_pattern_data` (enhanced_crawl4ai.py, lines 177-195): this copy
merges only the `emails`, `funding_amounts` and `african_locations` keys. -/
def _merge_pattern_data (r : InnovationExtractionResult) (p : PatternData) :
    InnovationExtractionResult :=
  let ci := r.contact_information
  let ci := match p.emails with
    | Option.none => ci
    | some es => dictSet ci "email"
        (match es.head? with
         | some e => ContactVal.pyStr e
         | Option.none => ContactVal.pyNone)
  let fa := match p.funding_amounts with
    | Option.none => r.funding_amounts
    | some amounts =>
        if r.funding_amounts.isEmpty then amounts else r.funding_amounts
  let loc := match p.african_locations with
    | Option.none => r.location
    | some locs =>
        if optStrTruthy r.location then r.location else locs.head?
  { r with contact_information := ci, funding_amounts := fa, location := loc }

/-- The failed result built by the `except` blocks of
`extract_innovation_data` (lines 40-48) and `_extract_target_with_semaphore`
(lines 792-802): `success = False` and the exception message as the sole
validation flag. -/
def failedExtractionResult (url : String) (content_type : ContentType)
    (message : String) : InnovationExtractionResult :=
  { url := url, content_type := content_type, success := false,
    validation_flags := ["Extraction failed: " ++ message] }

/-- `extract_innovation_data` (enhanced_crawl4ai.py, lines 1-48 of the
fragment): the whole extraction body (fetch, structured extraction, link
following, scoring) sits inside one `try`; `attempt` is its outcome, and any
exception is converted into a failed result carrying the message. -/
def extract_innovation_data (url : String) (content_type : ContentType)
    (attempt : Except String InnovationExtractionResult) :
    InnovationExtractionResult :=
  match attempt with
  | Except.ok r => r
  | Except.error e => failedExtractionResult url content_type e

end TaifaFiala.EnhancedCrawl4AI

namespace TaifaFiala.Orchestrator

open TaifaFiala

/-- Strict comparison of the sort key `(priority_order[t.priority],
t.discovered_at)` used by the full `_prioritize_targets`. -/
def targetKeyLt (a b : CollectionTarget) : Bool :=
  priority_order a.priority < priority_order b.priority ||
    (priority_order a.priority == priority_order b.priority &&
     a.discovered_at < b.discovered_at)

/-- `_prioritize_targets` of the full `DataCollectionOrchestrator`
(enhanced_crawl4ai.py, lines 721-740): stable sort by
`(priority_order[t.priority], t.discovered_at)` then truncation to
`max_targets_per_cycle`. -/
def _prioritize_targets (max_targets_per_cycle : ℕ)
    (targets : List CollectionTarget) : List CollectionTarget :=
  let sorted_targets := pySorted targetKeyLt targets
  sorted_targets.take max_targets_per_cycle

/-- `_extract_target_with_semaphore` (enhanced_crawl4ai.py, lines 770-802):
runs one extraction under the semaphore; `extract` is the outcome of the
`extract_innovation_data` call for a target (its exceptions modelled as
`Except.error`), and the `except` block converts any exception into a failed
result for that target. -/
def _extract_target_with_semaphore
    (extract : CollectionTarget → Except String InnovationExtractionResult)
    (target : CollectionTarget) : InnovationExtractionResult :=
  match extract target with
  | Except.ok result => result
  | Except.error e =>
      EnhancedCrawl4AI.failedExtractionResult target.url target.content_type e

/-- `_process_extraction_queue` (enhanced_crawl4ai.py, lines 742-768): every
target is launched as a task whose body is `_extract_target_with_semaphore`
(which never raises, since it catches every exception), the tasks are gathered
with `return_exceptions=True`, and the gathered values are filtered with
`isinstance(result, InnovationExtractionResult)`. -/
def _process_extraction_queue
    (extract : CollectionTarget → Except String InnovationExtractionResult)
    (targets : List CollectionTarget) : List InnovationExtractionResult :=
  let extraction_results : List (Except String InnovationExtractionResult) :=
    targets.map (fun t => Except.ok (_extract_target_with_semaphore extract t))
  extraction_results.filterMap (fun x =>
    match x with
    | Except.ok r => some r
    | Except.error _ => Option.none)

/-- The three configurable values read from
`collection_config["quality_thresholds"]`. -/
structure QualityThresholds where
  min_completeness_score : ℚ
  min_confidence_score : ℚ
  max_validation_flags : ℕ
deriving DecidableEq, Repr

/-- The acceptance test of `_validate_and_store_innovations`
(enhanced_crawl4ai.py, lines 810-821): `success` and the three threshold
comparisons, with `len(result.validation_flags or [])` for the flag count. -/
def passesQualityGate (cfg : QualityThresholds)
    (r : InnovationExtractionResult) : Bool :=
  r.success &&
    decide (cfg.min_completeness_score ≤ r.data_completeness_score) &&
    decide (cfg.min_confidence_score ≤ r.confidence_score) &&
    decide (r.validation_flags.length ≤ cfg.max_validation_flags)

/-- The `extraction_metadata` sub-object of `_prepare_database_record`. -/
structure ExtractionMetadata where
  completeness_score : ℚ
  confidence_score : ℚ
  validation_flags : List String
deriving DecidableEq, Repr

/-- The persistence-ready record shaped by `_prepare_database_record`
(enhanced_crawl4ai.py, lines 834-857). -/
structure DatabaseRecord where
  title : Option String
  description : Option String
  innovation_type : Option String
  problem_solved : Option String
  technical_approach : Option String
  development_stage : Option String
  technical_stack : List String
  location : Option String
  organization_affiliation : Option String
  contact_information : List (String × ContactVal)
  funding_sources : List FundingSource
  funding_amounts : List String
  source_url : String
  extraction_metadata : ExtractionMetadata
deriving DecidableEq, Repr

/-- `_prepare_database_record` (enhanced_crawl4ai.py, lines 834-857). -/
def _prepare_database_record (r : InnovationExtractionResult) : DatabaseRecord :=
  { title := r.title, description := r.description,
    innovation_type := r.innovation_type, problem_solved := r.problem_solved,
    technical_approach := r.technical_approach,
    development_stage := r.development_stage,
    technical_stack := r.technical_stack, location := r.location,
    organization_affiliation := r.organization_affiliation,
    contact_information := r.contact_information,
    funding_sources := r.funding_sources,
    funding_amounts := r.funding_amounts, source_url := r.url,
    extraction_metadata :=
      { completeness_score := r.data_completeness_score,
        confidence_score := r.confidence_score,
        validation_flags := r.validation_flags } }

/-- `_validate_and_store_innovations` (enhanced_crawl4ai.py, lines 804-832):
the loop skips failed results, applies the three thresholds, and collects the
prepared records of the survivors in order. -/
def _validate_and_store_innovations (cfg : QualityThresholds) :
    List InnovationExtractionResult → List DatabaseRecord
  | [] => []
  | r :: rest =>
      if passesQualityGate cfg r then
        _prepare_database_record r :: _validate_and_store_innovations cfg rest
      else
        _validate_and_store_innovations cfg rest

/-- The orchestrator state read by `get_collection_stats`. -/
structure OrchestratorState where
  collection_history : List CollectionCycleResult
  active_targets : List CollectionTarget := []

/-- `get_collection_stats` (enhanced_crawl4ai.py, lines 899-918).  The outer
`Option` is the possibility of an uncaught `ZeroDivisionError` in the
`success_rate` expression: the source guards the division with
`if latest_cycle.targets_processed > 0 ... else 0`, and the embedding keeps
the guard and the raw `pyDiv` so that the absence of the error is a theorem
rather than an artifact. -/
def get_collection_stats (st : OrchestratorState) :
    Option (List (String × StatVal)) :=
  match st.collection_history.getLast? with
  | Option.none => some [("message", StatVal.str "No collection cycles completed yet")]
  | some latest_cycle =>
      let success_rate : Option ℚ :=
        if 0 < latest_cycle.targets_processed then
          pyDiv (latest_cycle.innovations_extracted : ℚ)
                (latest_cycle.targets_processed : ℚ)
        else some 0
      success_rate.map (fun sr =>
        [("latest_cycle", StatVal.str latest_cycle.cycle_id),
         ("total_cycles", StatVal.nat st.collection_history.length),
         ("last_cycle_performance", StatVal.obj
            [("targets_discovered", StatVal.nat latest_cycle.targets_discovered),
             ("targets_processed", StatVal.nat latest_cycle.targets_processed),
             ("innovations_extracted", StatVal.nat latest_cycle.innovations_extracted),
             ("success_rate", StatVal.rat sr)]),
         ("active_targets", StatVal.nat st.active_targets.length),
         ("recommendations", StatVal.strList latest_cycle.next_cycle_recommendations)])

end TaifaFiala.Orchestrator

namespace TaifaFiala.SimpleOrchestrator

open TaifaFiala

/-- `_prioritize_targets` of the simplified orchestrator variant
(enhanced_crawl4ai.py, lines 1020-1031): the sort key is
`priority_order[t.priority]` alone — `discovered_at` is not part of the key —
and there is no truncation. -/
def _prioritize_targets (targets : List CollectionTarget) :
    List CollectionTarget :=
  pySorted
    (fun a b => priority_order a.priority < priority_order b.priority) targets

/-- The acceptance test of `_validate_innovations` (enhanced_crawl4ai.py,
lines 1078-1081): `success`, completeness ≥ 0.3 and confidence ≥ 0.5, with
hard-coded thresholds and no check of the validation flags. -/
def validateInnovationsAccepts (r : InnovationExtractionResult) : Bool :=
  r.success &&
    decide ((3 : ℚ)/10 ≤ r.data_completeness_score) &&
    decide ((1 : ℚ)/2 ≤ r.confidence_score)

/-- The flattened record built by `_validate_innovations` for an accepted
result (enhanced_crawl4ai.py, lines 1083-1092). -/
structure SimpleRecord where
  title : Option String
  description : Option String
  innovation_type : Option String
  location : Option String
  source_url : String
  completeness_score : ℚ
  confidence_score : ℚ
deriving DecidableEq, Repr

/-- The `innovation_record` dict literal of `_validate_innovations`. -/
def simpleRecordOf (r : InnovationExtractionResult) : SimpleRecord :=
  { title := r.title, description := r.description,
    innovation_type := r.innovation_type, location := r.location,
    source_url := r.url,
    completeness_score := r.data_completeness_score,
    confidence_score := r.confidence_score }

/-- `_validate_innovations` (enhanced_crawl4ai.py, lines 1073-1098). -/
def _validate_innovations : List InnovationExtractionResult → List SimpleRecord
  | [] => []
  | r :: rest =>
      if validateInnovationsAccepts r then
        simpleRecordOf r :: _validate_innovations rest
      else
        _validate_innovations rest

/-- The cycle-result dataclass as read by the simplified `get_stats`
(it accesses `latest.recommendations`). -/
structure CycleResult where
  cycle_id : String
  targets_discovered : ℕ
  targets_processed : ℕ
  innovations_extracted : ℕ
  recommendations : List String := []
deriving DecidableEq, Repr

/-- The simplified orchestrator state read by `get_stats`. -/
structure State where
  collection_history : List CycleResult
  active_targets : List CollectionTarget := []

/-- `get_stats` (enhanced_crawl4ai.py, lines 1117-1136); same shape as
`Orchestrator.get_collection_stats` up to key names. -/
def get_stats (st : State) : Option (List (String × StatVal)) :=
  match st.collection_history.getLast? with
  | Option.none => some [("message", StatVal.str "No collection cycles completed yet")]
  | some latest =>
      let success_rate : Option ℚ :=
        if 0 < latest.targets_processed then
          pyDiv (latest.innovations_extracted : ℚ) (latest.targets_processed : ℚ)
        else some 0
      success_rate.map (fun sr =>
        [("latest_cycle_id", StatVal.str latest.cycle_id),
         ("total_cycles", StatVal.nat st.collection_history.length),
         ("last_performance", StatVal.obj
            [("targets_discovered", StatVal.nat latest.targets_discovered),
             ("targets_processed", StatVal.nat latest.targets_processed),
             ("innovations_extracted", StatVal.nat latest.innovations_extracted),
             ("success_rate", StatVal.rat sr)]),
         ("active_targets", StatVal.nat st.active_targets.length),
         ("recommendations", StatVal.strList latest.recommendations)])

end TaifaFiala.SimpleOrchestrator

namespace TaifaFiala

/-- Modelled from the spec: the merge/dedup step of `run_collection_cycle`
(spec §4.2 "Target Deduplicator & Prioritizer"), whose body is not present in
the source under src/ (the orchestrator file is truncated and only the
mission extractors, the prioritizer and the downstream steps survive).  Per
the spec, mission outputs are merged into one candidate set keyed by the
synthetic id; later duplicates are dropped and the earliest-seen target wins
(mission execution order, i.e. list order here, is the tie-break). -/
def mergeDedupGo (seen : List String) :
    List CollectionTarget → List CollectionTarget
  | [] => []
  | t :: rest =>
      if seen.contains t.id then mergeDedupGo seen rest
      else t :: mergeDedupGo (t.id :: seen) rest

/-- Modelled from the spec (continued): the dedup over the whole merged
mission output starts with no id seen. -/
def mergeDedupTargets (targets : List CollectionTarget) :
    List CollectionTarget :=
  mergeDedupGo [] targets

/-- Spec-side formula for the confidence score (spec §4.4): 0.5 plus the five
additive boosts, clamped to a maximum of 1.0.  Stated from the spec's words
for comparison with the two implementations. -/
def specConfidenceScore (r : InnovationExtractionResult)
    (structuredExtractionSucceeded : Bool) : ℚ :=
  min 1 ((1/2)
    + (if structuredExtractionSucceeded then 1/5 else 0)
    + (if contactInfoPopulated r then 1/10 else 0)
    + (if locationNamesAllowListedCountry r then 3/20 else 0)
    + (if 1 < r.technical_stack.length then 1/10 else 0)
    + (if !r.funding_sources.isEmpty || !r.funding_amounts.isEmpty then 1/10 else 0))

/-- Spec-side list of validation flags (spec §4.4): one flag per absent-field
condition — missing title, missing description, missing location, no contact
channel, funding amounts without funding sources, and absent technical
detail.  Stated from the spec's words (with the source's flag strings) for
comparison with the two implementations. -/
def specValidationFlags (r : InnovationExtractionResult) : List String :=
  (if !optStrTruthy r.title then
    ["Missing title - manual verification needed"] else []) ++
  (if !optStrTruthy r.description then
    ["Missing description - may need additional sources"] else []) ++
  (if !optStrTruthy r.location then
    ["No African location identified - verify geographic relevance"] else []) ++
  (if !contactInfoPopulated r then
    ["No contact information found - outreach may be difficult"] else []) ++
  (if !r.funding_amounts.isEmpty && r.funding_sources.isEmpty then
    ["Funding amounts mentioned without sources - verify claims"] else []) ++
  (if !optStrTruthy r.technical_approach && r.technical_stack.isEmpty then
    ["Limited technical details - may need deeper investigation"] else [])

end TaifaFiala

namespace TaifaFiala

/-- A result with only the two core fields `title` and `description` filled
(the scenario input of spec §8). -/
def sampleTitleDesc : InnovationExtractionResult :=
  { url := "https://example.org/tool", content_type := .startup_profile,
    title := some "AI Tool", description := some "A diagnostic assistant" }

/-- A result with every scored field empty. -/
def sampleEmpty : InnovationExtractionResult :=
  { url := "https://example.org/none", content_type := .startup_profile }

/-- C1: For every extraction result, the completeness score (identical in both
source files) equals filled-weight divided by total-weight with the four core
fields weighing 2 and the nine standard fields weighing 1 (total weight 17);
it always lies in [0,1]; it is 0 when every field is empty; and a result with
only title and description filled scores exactly 4/17. -/
theorem completeness_score_correct (r : InnovationExtractionResult) :
    PerplexityAfricanAI._calculate_completeness_score r =
      ((2 * ((coreFieldsFilled r).count true) +
        ((standardFieldsFilled r).count true) : ℕ) : ℚ) / 17
    ∧ EnhancedCrawl4AI._calculate_completeness_score r =
        PerplexityAfricanAI._calculate_completeness_score r
    ∧ 0 ≤ PerplexityAfricanAI._calculate_completeness_score r
    ∧ PerplexityAfricanAI._calculate_completeness_score r ≤ 1
    ∧ ((coreFieldsFilled r).count true = 0 →
        (standardFieldsFilled r).count true = 0 →
        PerplexityAfricanAI._calculate_completeness_score r = 0)
    ∧ (coreFieldsFilled r = [true, true, false, false] →
        (standardFieldsFilled r).count true = 0 →
        PerplexityAfricanAI._calculate_completeness_score r = 4/17) := by
  have hcore : (coreFieldsFilled r).length = 4 := rfl
  have hstd : (standardFieldsFilled r).length = 9 := rfl
  have hc : (coreFieldsFilled r).count true ≤ 4 :=
    hcore ▸ List.count_le_length true (coreFieldsFilled r)
  have hs : (standardFieldsFilled r).count true ≤ 9 :=
    hstd ▸ List.count_le_length true (standardFieldsFilled r)
  have key : PerplexityAfricanAI._calculate_completeness_score r =
      ((2 * ((coreFieldsFilled r).count true) +
        ((standardFieldsFilled r).count true) : ℕ) : ℚ) / 17 := by
    simp only [PerplexityAfricanAI._calculate_completeness_score, hcore, hstd]
    norm_num
  refine ⟨key, rfl, ?_, ?_, ?_, ?_⟩
  · rw [key]; positivity
  · rw [key]
    rw [div_le_one (by norm_num)]
    have : 2 * ((coreFieldsFilled r).count true) +
        ((standardFieldsFilled r).count true) ≤ 17 := by omega
    exact_mod_cast this
  · intro h1 h2
    rw [key, h1, h2]
    norm_num
  · intro h1 h2
    have : (coreFieldsFilled r).count true = 2 := by rw [h1]; rfl
    rw [key, this, h2]
    norm_num

/-- Witness for C1: evaluating the score on the scenario input gives 4/17, and
on the all-empty result gives 0. -/
theorem completeness_score_correct_witness :
    PerplexityAfricanAI._calculate_completeness_score sampleTitleDesc = 4/17
    ∧ PerplexityAfricanAI._calculate_completeness_score sampleEmpty = 0 :=
  ⟨(completeness_score_correct sampleTitleDesc).2.2.2.2.2
      (by decide) (by decide),
   (completeness_score_correct sampleEmpty).2.2.2.2.1
      (by decide) (by decide)⟩

end TaifaFiala

namespace TaifaFiala

/-- A guard simplification: `result.technical_stack and
len(result.technical_stack) > 1` is equivalent to the length test alone. -/
theorem stack_guard_eq (l : List String) :
    (!l.isEmpty && decide (1 < l.length)) = decide (1 < l.length) := by
  cases l <;> simp

/-- A result enjoying every confidence boost: populated contact info, an
allow-listed country in the location, a two-entry technical stack, and a
funding source. -/
def confidenceBoostedResult : InnovationExtractionResult :=
  { url := "https://payai.example", content_type := .startup_profile,
    title := some "PayAI", location := some "Nairobi, Kenya",
    contact_information := [("email", ContactVal.pyStr "team@payai.example")],
    technical_stack := ["Python", "TensorFlow"],
    funding_sources := [{ name := "Savannah Fund" }] }

/-- Counterexample to C2: on a result with every boost active and a structured
extraction, the enhanced_crawl4ai.py scorer (one of the two cited
implementations) yields 0.95, not the claimed 0.5-plus-five-boosts value 1.0 —
it applies no technical-stack boost and no funding boost. -/
theorem confidence_score_counterexample :
    EnhancedCrawl4AI._calculate_confidence_score confidenceBoostedResult true = 19/20
    ∧ specConfidenceScore confidenceBoostedResult true = 1
    ∧ EnhancedCrawl4AI._calculate_confidence_score confidenceBoostedResult true ≠
        specConfidenceScore confidenceBoostedResult true := by
  have h1 : contactInfoPopulated confidenceBoostedResult = true := by decide
  have h2 : locationNamesAllowListedCountry confidenceBoostedResult = true := by decide
  have h3 : confidenceBoostedResult.technical_stack = ["Python", "TensorFlow"] := rfl
  have h4 : confidenceBoostedResult.funding_sources = [{ name := "Savannah Fund" }] := rfl
  refine ⟨?_, ?_, ?_⟩ <;>
    simp only [EnhancedCrawl4AI._calculate_confidence_score, specConfidenceScore,
      h1, h2, h3, h4, if_true] <;>
    norm_num [min_def]

/-- C2 (amended): the perplexity_african_ai.py confidence scorer equals the
spec's formula — 0.5 plus the five additive boosts, clamped at 1.0 — while the
enhanced_crawl4ai.py scorer applies only the first three boosts (structured
extraction, contact info, allow-listed location) and never reaches the clamp;
both scores always lie in [1/2, 1] ⊆ [0, 1]. -/
theorem confidence_score_corrected (r : InnovationExtractionResult)
    (extracted_content : Bool) :
    PerplexityAfricanAI._calculate_confidence_score r extracted_content =
      specConfidenceScore r extracted_content
    ∧ EnhancedCrawl4AI._calculate_confidence_score r extracted_content =
        min 1 ((1/2)
          + (if extracted_content then (1/5 : ℚ) else 0)
          + (if contactInfoPopulated r then 1/10 else 0)
          + (if locationNamesAllowListedCountry r then 3/20 else 0))
    ∧ 1/2 ≤ PerplexityAfricanAI._calculate_confidence_score r extracted_content
    ∧ PerplexityAfricanAI._calculate_confidence_score r extracted_content ≤ 1
    ∧ 1/2 ≤ EnhancedCrawl4AI._calculate_confidence_score r extracted_content
    ∧ EnhancedCrawl4AI._calculate_confidence_score r extracted_content ≤ 1 := by
  refine ⟨?_, ?_, ?_, ?_, ?_, ?_⟩ <;>
    simp only [PerplexityAfricanAI._calculate_confidence_score,
      EnhancedCrawl4AI._calculate_confidence_score, specConfidenceScore,
      stack_guard_eq, decide_eq_true_eq] <;>
    split_ifs <;>
    norm_num [min_def]

end TaifaFiala

namespace TaifaFiala

/-- Filtering with a weaker predicate keeps at least as many elements. -/
theorem length_filter_mono {α : Type} (p q : α → Bool)
    (h : ∀ a, p a = true → q a = true) :
    ∀ l : List α, (l.filter p).length ≤ (l.filter q).length := by
  intro l
  induction l with
  | nil => simp
  | cons x xs ih =>
    by_cases hx : p x = true
    · simp only [List.filter_cons, if_pos hx, if_pos (h x hx), List.length_cons]
      omega
    · simp only [List.filter_cons, if_neg hx]
      by_cases hq : q x = true
      · simp only [if_pos hq, List.length_cons]
        omega
      · simp only [if_neg hq]
        exact ih

/-- The full quality-gate loop collects exactly the prepared records of the
results passing the gate, in order. -/
theorem validate_and_store_eq_filter_map (cfg : Orchestrator.QualityThresholds)
    (results : List InnovationExtractionResult) :
    Orchestrator._validate_and_store_innovations cfg results =
      (results.filter (Orchestrator.passesQualityGate cfg)).map
        Orchestrator._prepare_database_record := by
  induction results with
  | nil => rfl
  | cons r rest ih =>
    by_cases h : Orchestrator.passesQualityGate cfg r = true
    · simp only [Orchestrator._validate_and_store_innovations, List.filter_cons,
        if_pos h, List.map_cons, ih]
    · simp only [Orchestrator._validate_and_store_innovations, List.filter_cons,
        if_neg h, ih]

/-- The simplified gate loop collects exactly the flattened records of the
results it accepts, in order. -/
theorem validate_innovations_eq_filter_map
    (results : List InnovationExtractionResult) :
    SimpleOrchestrator._validate_innovations results =
      (results.filter SimpleOrchestrator.validateInnovationsAccepts).map
        SimpleOrchestrator.simpleRecordOf := by
  induction results with
  | nil => rfl
  | cons r rest ih =>
    by_cases h : SimpleOrchestrator.validateInnovationsAccepts r = true
    · simp only [SimpleOrchestrator._validate_innovations, List.filter_cons,
        if_pos h, List.map_cons, ih]
    · simp only [SimpleOrchestrator._validate_innovations, List.filter_cons,
        if_neg h, ih]

/-- A successful result that meets the simplified gate's hard-coded score
thresholds while carrying three validation flags. -/
def gateBypassResult : InnovationExtractionResult :=
  { url := "https://gate.example", content_type := .innovation_profile,
    success := true, title := some "T", description := some "D",
    data_completeness_score := 3/10, confidence_score := 1/2,
    validation_flags := ["flag one", "flag two", "flag three"] }

/-- Counterexample to C3: the `_validate_innovations` gate (one of the two
cited implementations) forwards a result carrying three validation flags, so
with any configuration whose `max_flags < 3` the claimed
forwarded-iff-four-conjuncts equivalence is false — that gate never consults
the flag count (nor any configurable threshold). -/
theorem quality_gate_counterexample :
    SimpleOrchestrator.validateInnovationsAccepts gateBypassResult = true
    ∧ SimpleOrchestrator._validate_innovations [gateBypassResult] =
        [SimpleOrchestrator.simpleRecordOf gateBypassResult]
    ∧ ¬ gateBypassResult.validation_flags.length ≤ 2 := by
  have hc : gateBypassResult.data_completeness_score = 3/10 := rfl
  have hf : gateBypassResult.confidence_score = 1/2 := rfl
  have hs : gateBypassResult.success = true := rfl
  have hacc : SimpleOrchestrator.validateInnovationsAccepts gateBypassResult = true := by
    simp only [SimpleOrchestrator.validateInnovationsAccepts, hc, hf, hs,
      Bool.and_eq_true, decide_eq_true_eq]
    norm_num
  refine ⟨hacc, ?_, by decide⟩
  simp only [SimpleOrchestrator._validate_innovations, if_pos hacc]

/-- C3 (amended): the full gate `_validate_and_store_innovations` forwards a
result iff success holds and all three configurable thresholds are met, and
loosening any threshold never shrinks the forwarded set; the simplified gate
`_validate_innovations` instead forwards iff success ∧ completeness ≥ 0.3 ∧
confidence ≥ 0.5 with hard-coded thresholds, ignoring validation flags. -/
theorem quality_gate_corrected (cfg lax : Orchestrator.QualityThresholds)
    (r : InnovationExtractionResult)
    (results : List InnovationExtractionResult) :
    (Orchestrator.passesQualityGate cfg r = true ↔
      (r.success = true
        ∧ cfg.min_completeness_score ≤ r.data_completeness_score
        ∧ cfg.min_confidence_score ≤ r.confidence_score
        ∧ r.validation_flags.length ≤ cfg.max_validation_flags))
    ∧ Orchestrator._validate_and_store_innovations cfg results =
        (results.filter (Orchestrator.passesQualityGate cfg)).map
          Orchestrator._prepare_database_record
    ∧ (SimpleOrchestrator.validateInnovationsAccepts r = true ↔
        (r.success = true
          ∧ (3:ℚ)/10 ≤ r.data_completeness_score
          ∧ (1:ℚ)/2 ≤ r.confidence_score))
    ∧ SimpleOrchestrator._validate_innovations results =
        (results.filter SimpleOrchestrator.validateInnovationsAccepts).map
          SimpleOrchestrator.simpleRecordOf
    ∧ (lax.min_completeness_score ≤ cfg.min_completeness_score →
        lax.min_confidence_score ≤ cfg.min_confidence_score →
        cfg.max_validation_flags ≤ lax.max_validation_flags →
        (Orchestrator._validate_and_store_innovations cfg results).length ≤
          (Orchestrator._validate_and_store_innovations lax results).length) := by
  refine ⟨?_, validate_and_store_eq_filter_map cfg results, ?_,
    validate_innovations_eq_filter_map results, ?_⟩
  · simp [Orchestrator.passesQualityGate, Bool.and_eq_true, decide_eq_true_eq,
      and_assoc]
  · simp [SimpleOrchestrator.validateInnovationsAccepts, Bool.and_eq_true,
      decide_eq_true_eq, and_assoc]
  · intro h1 h2 h3
    rw [validate_and_store_eq_filter_map cfg results,
      validate_and_store_eq_filter_map lax results,
      List.length_map, List.length_map]
    refine length_filter_mono _ _ ?_ results
    intro a ha
    simp only [Orchestrator.passesQualityGate, Bool.and_eq_true,
      decide_eq_true_eq] at ha ⊢
    exact ⟨⟨⟨ha.1.1.1, le_trans h1 ha.1.1.2⟩, le_trans h2 ha.1.2⟩,
      le_trans ha.2 h3⟩

/-- A strict threshold configuration. -/
def strictThresholds : Orchestrator.QualityThresholds :=
  { min_completeness_score := 1/2, min_confidence_score := 7/10,
    max_validation_flags := 1 }

/-- A lax threshold configuration, pointwise looser than `strictThresholds`. -/
def laxThresholds : Orchestrator.QualityThresholds :=
  { min_completeness_score := 1/10, min_confidence_score := 1/10,
    max_validation_flags := 5 }

/-- Witness for C3 (amended): concrete monotonicity instance — loosening the
thresholds from `strictThresholds` to `laxThresholds` does not shrink the
forwarded set on a one-result batch. -/
theorem quality_gate_corrected_witness :
    (Orchestrator._validate_and_store_innovations strictThresholds
        [gateBypassResult]).length ≤
      (Orchestrator._validate_and_store_innovations laxThresholds
        [gateBypassResult]).length :=
  (quality_gate_corrected strictThresholds laxThresholds gateBypassResult
      [gateBypassResult]).2.2.2.2
    (by norm_num [strictThresholds, laxThresholds])
    (by norm_num [strictThresholds, laxThresholds])
    (by norm_num [strictThresholds, laxThresholds])

end TaifaFiala

namespace TaifaFiala

/-- The extraction queue is the pointwise image of the per-target wrapper:
each launched task resolves to the wrapper's value for its own target. -/
theorem process_extraction_queue_eq_map
    (extract : CollectionTarget → Except String InnovationExtractionResult) :
    ∀ ts : List CollectionTarget,
      Orchestrator._process_extraction_queue extract ts =
        ts.map (Orchestrator._extract_target_with_semaphore extract) := by
  intro ts
  induction ts with
  | nil => rfl
  | cons t rest ih =>
    have step : Orchestrator._process_extraction_queue extract (t :: rest) =
        Orchestrator._extract_target_with_semaphore extract t ::
          Orchestrator._process_extraction_queue extract rest := rfl
    rw [step, ih, List.map_cons]

/-- C4: every exception raised during a target's extraction is caught and
converted into a failed result with `success = false` carrying the exception
message as a validation flag; the exception does not propagate and does not
affect other targets: the queue's i-th outcome depends only on the i-th
target, and every launched extraction resolves (the output has one entry per
target). -/
theorem extraction_isolation
    (extract : CollectionTarget → Except String InnovationExtractionResult)
    (targets : List CollectionTarget) :
    (Orchestrator._process_extraction_queue extract targets).length =
      targets.length
    ∧ (∀ i : ℕ, (Orchestrator._process_extraction_queue extract targets)[i]? =
        (targets[i]?).map (Orchestrator._extract_target_with_semaphore extract))
    ∧ (∀ t e, extract t = Except.error e →
        Orchestrator._extract_target_with_semaphore extract t =
          EnhancedCrawl4AI.failedExtractionResult t.url t.content_type e
        ∧ (Orchestrator._extract_target_with_semaphore extract t).success = false
        ∧ ("Extraction failed: " ++ e) ∈
            (Orchestrator._extract_target_with_semaphore extract t).validation_flags)
    ∧ (∀ t res, extract t = Except.ok res →
        Orchestrator._extract_target_with_semaphore extract t = res)
    ∧ (∀ url ct e,
        EnhancedCrawl4AI.extract_innovation_data url ct (Except.error e) =
          EnhancedCrawl4AI.failedExtractionResult url ct e
        ∧ (EnhancedCrawl4AI.failedExtractionResult url ct e).success = false) := by
  refine ⟨?_, ?_, ?_, ?_, ?_⟩
  · rw [process_extraction_queue_eq_map extract targets, List.length_map]
  · intro i
    rw [process_extraction_queue_eq_map extract targets, List.getElem?_map]
  · intro t e h
    refine ⟨?_, ?_, ?_⟩ <;>
      simp [Orchestrator._extract_target_with_semaphore, h,
        EnhancedCrawl4AI.failedExtractionResult]
  · intro t res h
    simp [Orchestrator._extract_target_with_semaphore, h]
  · intro url ct e
    exact ⟨rfl, rfl⟩

/-- A target whose extraction succeeds. -/
def extractionTargetGood : CollectionTarget :=
  { id := "github_acme_ai-tool_1", url := "https://github.com/acme/ai-tool",
    content_type := .github_repository, priority := .medium,
    source_collector := .innovation_discovery, discovered_at := 1 }

/-- A target whose extraction raises. -/
def extractionTargetBad : CollectionTarget :=
  { id := "startup_bad_2", url := "https://bad.example",
    content_type := .startup_profile, priority := .medium,
    source_collector := .innovation_discovery, discovered_at := 2 }

/-- A concrete extraction behavior: raises on the bad target, succeeds on the
rest. -/
def sampleExtract : CollectionTarget → Except String InnovationExtractionResult :=
  fun t =>
    if t.url == "https://bad.example" then Except.error "connection reset"
    else Except.ok { url := t.url, content_type := t.content_type,
                     title := some "AI Tool" }

/-- Witness for C4: with one good and one raising target, both extractions
resolve, and the raising one yields a failed result carrying the exception
message as a flag. -/
theorem extraction_isolation_witness :
    (Orchestrator._process_extraction_queue sampleExtract
        [extractionTargetGood, extractionTargetBad]).length = 2
    ∧ (Orchestrator._extract_target_with_semaphore sampleExtract
        extractionTargetBad).success = false
    ∧ ("Extraction failed: " ++ "connection reset") ∈
        (Orchestrator._extract_target_with_semaphore sampleExtract
          extractionTargetBad).validation_flags :=
  ⟨(extraction_isolation sampleExtract
      [extractionTargetGood, extractionTargetBad]).1,
   ((extraction_isolation sampleExtract
      [extractionTargetGood, extractionTargetBad]).2.2.1
      extractionTargetBad "connection reset" rfl).2.1,
   ((extraction_isolation sampleExtract
      [extractionTargetGood, extractionTargetBad]).2.2.1
      extractionTargetBad "connection reset" rfl).2.2⟩

end TaifaFiala

namespace TaifaFiala

/-- Membership in a stable insertion. -/
theorem mem_insertStable {α : Type} (lt : α → α → Bool) (x a : α) :
    ∀ l : List α, a ∈ insertStable lt x l ↔ a = x ∨ a ∈ l := by
  intro l
  induction l with
  | nil => simp [insertStable]
  | cons y ys ih =>
    simp only [insertStable]
    by_cases h : lt y x = true
    · rw [if_pos h]
      simp only [List.mem_cons, ih]
      tauto
    · rw [if_neg h]
      simp only [List.mem_cons]

/-- A stable insertion permutes the element onto the list. -/
theorem insertStable_perm {α : Type} (lt : α → α → Bool) (x : α) :
    ∀ l : List α, (insertStable lt x l).Perm (x :: l) := by
  intro l
  induction l with
  | nil => simp [insertStable]
  | cons y ys ih =>
    simp only [insertStable]
    by_cases h : lt y x = true
    · rw [if_pos h]
      exact (ih.cons y).trans (List.Perm.swap x y ys)
    · rw [if_neg h]

/-- `pySorted` permutes its input. -/
theorem pySorted_perm {α : Type} (lt : α → α → Bool) :
    ∀ l : List α, (pySorted lt l).Perm l := by
  intro l
  induction l with
  | nil => simp [pySorted]
  | cons x xs ih =>
    exact (insertStable_perm lt x (pySorted lt xs)).trans (ih.cons x)

/-- Inserting into a list with no inversions (with respect to the strict
comparator `lt`) preserves the property, assuming `lt` is asymmetric and
negatively transitive (a strict weak order). -/
theorem pairwise_insertStable {α : Type} (lt : α → α → Bool)
    (asym : ∀ a b, lt a b = true → lt b a = false)
    (negtrans : ∀ a b c, lt b a = false → lt c b = false → lt c a = false)
    (x : α) :
    ∀ l : List α, l.Pairwise (fun a b => lt b a = false) →
      (insertStable lt x l).Pairwise (fun a b => lt b a = false) := by
  intro l
  induction l with
  | nil =>
    intro _
    simp [insertStable]
  | cons y ys ih =>
    intro h
    rw [List.pairwise_cons] at h
    obtain ⟨hy, hys⟩ := h
    simp only [insertStable]
    by_cases hcase : lt y x = true
    · rw [if_pos hcase]
      rw [List.pairwise_cons]
      refine ⟨?_, ih hys⟩
      intro z hz
      rcases (mem_insertStable lt x z ys).mp hz with rfl | hzys
      · exact asym y z hcase
      · exact hy z hzys
    · rw [if_neg hcase]
      rw [List.pairwise_cons]
      refine ⟨?_, List.Pairwise.cons hy hys⟩
      intro z hz
      rcases List.mem_cons.mp hz with rfl | hzys
      · exact Bool.not_eq_true _ ▸ (by simpa using hcase)
      · exact negtrans x y z (by simpa using hcase) (hy z hzys)

/-- `pySorted` leaves no inversion with respect to a strict weak order. -/
theorem pairwise_pySorted {α : Type} (lt : α → α → Bool)
    (asym : ∀ a b, lt a b = true → lt b a = false)
    (negtrans : ∀ a b c, lt b a = false → lt c b = false → lt c a = false) :
    ∀ l : List α, (pySorted lt l).Pairwise (fun a b => lt b a = false) := by
  intro l
  induction l with
  | nil => simp [pySorted]
  | cons x xs ih =>
    exact pairwise_insertStable lt asym negtrans x (pySorted lt xs) ih

/-- Extracting the adjacent-pairs consequence of a `Pairwise` list. -/
theorem pairwise_adjacent {α : Type} {R : α → α → Prop} {l : List α}
    (h : l.Pairwise R) (i : ℕ) (a b : α)
    (ha : l[i]? = some a) (hb : l[i+1]? = some b) : R a b := by
  rw [List.getElem?_eq_some] at ha hb
  obtain ⟨hi, rfl⟩ := ha
  obtain ⟨hj, rfl⟩ := hb
  have key := List.pairwise_iff_get.mp h ⟨i, hi⟩ ⟨i+1, hj⟩ (by simp [Fin.lt_def])
  simpa [List.get_eq_getElem] using key

/-- The lexicographic target comparator is asymmetric. -/
theorem targetKeyLt_asym (a b : CollectionTarget) :
    Orchestrator.targetKeyLt a b = true → Orchestrator.targetKeyLt b a = false := by
  simp only [Orchestrator.targetKeyLt, Bool.or_eq_true, Bool.and_eq_true,
    decide_eq_true_eq, beq_iff_eq, Bool.eq_false_iff, ne_eq]
  intro h hc
  rcases hc with hc | hc <;> rcases h with h | h <;> omega

/-- The lexicographic target comparator is negatively transitive. -/
theorem targetKeyLt_negtrans (a b c : CollectionTarget) :
    Orchestrator.targetKeyLt b a = false → Orchestrator.targetKeyLt c b = false →
    Orchestrator.targetKeyLt c a = false := by
  simp only [Orchestrator.targetKeyLt, Bool.or_eq_true, Bool.and_eq_true,
    decide_eq_true_eq, beq_iff_eq, Bool.eq_false_iff, ne_eq]
  intro h1 h2 hc
  rcases hc with hc | hc
  · exact h1 (Or.inl (by
      rcases Nat.lt_or_ge (priority_order b.priority) (priority_order a.priority)
        with hlt | hge
      · exact hlt
      · exact absurd (Or.inl (Nat.lt_of_lt_of_le hc hge)) h2))
  · by_cases hb : priority_order b.priority < priority_order a.priority
    · exact h1 (Or.inl hb)
    · by_cases hcb : priority_order c.priority < priority_order b.priority
      · exact h2 (Or.inl hcb)
      · by_cases hdb : b.discovered_at < a.discovered_at ∧
          priority_order b.priority = priority_order a.priority
        · exact h1 (Or.inr ⟨hdb.2, hdb.1⟩)
        · exact h2 (Or.inr ⟨by omega, by omega⟩)

end TaifaFiala

namespace TaifaFiala

/-- C5 (amended): the full orchestrator's `_prioritize_targets` stably sorts
by `(priority_rank, discovered_at)` ascending and truncates to
`max_targets_per_cycle`, so adjacent output pairs satisfy both the rank and
the tie-break inequality; the simplified orchestrator's `_prioritize_targets`
sorts by priority rank only (input order, not `discovered_at`, breaks ties)
and applies no truncation, so only the rank part of the adjacency property
holds for it. -/
theorem prioritize_targets_corrected (max_targets : ℕ)
    (targets : List CollectionTarget) :
    Orchestrator._prioritize_targets max_targets targets =
      (pySorted Orchestrator.targetKeyLt targets).take max_targets
    ∧ (pySorted Orchestrator.targetKeyLt targets).Perm targets
    ∧ (Orchestrator._prioritize_targets max_targets targets).length ≤ max_targets
    ∧ (∀ i a b,
        (Orchestrator._prioritize_targets max_targets targets)[i]? = some a →
        (Orchestrator._prioritize_targets max_targets targets)[i+1]? = some b →
        priority_order a.priority ≤ priority_order b.priority
        ∧ (priority_order a.priority = priority_order b.priority →
            a.discovered_at ≤ b.discovered_at))
    ∧ (SimpleOrchestrator._prioritize_targets targets).Perm targets
    ∧ (SimpleOrchestrator._prioritize_targets targets).length = targets.length
    ∧ (∀ i a b,
        (SimpleOrchestrator._prioritize_targets targets)[i]? = some a →
        (SimpleOrchestrator._prioritize_targets targets)[i+1]? = some b →
        priority_order a.priority ≤ priority_order b.priority) := by
  have hsorted := pairwise_pySorted Orchestrator.targetKeyLt
    targetKeyLt_asym targetKeyLt_negtrans targets
  have htrunc : (Orchestrator._prioritize_targets max_targets targets).Pairwise
      (fun a b => Orchestrator.targetKeyLt b a = false) :=
    List.Pairwise.sublist (List.take_sublist max_targets _) hsorted
  have hsimple := pairwise_pySorted
    (fun a b : CollectionTarget =>
      priority_order a.priority < priority_order b.priority)
    (by intro a b; simp only [decide_eq_true_eq, Bool.eq_false_iff, ne_eq]; omega)
    (by intro a b c; simp only [decide_eq_true_eq, Bool.eq_false_iff, ne_eq]; omega)
    targets
  refine ⟨rfl, pySorted_perm _ targets, List.length_take_le _ _, ?_, ?_, ?_, ?_⟩
  · intro i a b ha hb
    have key := pairwise_adjacent htrunc i a b ha hb
    simp only [Orchestrator.targetKeyLt, Bool.or_eq_true, Bool.and_eq_true,
      decide_eq_true_eq, beq_iff_eq, Bool.eq_false_iff, ne_eq] at key
    constructor
    · by_contra hlt
      exact key (Or.inl (by omega))
    · intro heq
      by_contra hlt
      exact key (Or.inr ⟨heq.symm, by omega⟩)
  · exact pySorted_perm _ targets
  · exact (pySorted_perm _ targets).length_eq
  · intro i a b ha hb
    have key := pairwise_adjacent hsimple i a b ha hb
    simp only [decide_eq_true_eq, Bool.eq_false_iff, ne_eq] at key
    omega

/-- A MEDIUM-priority target discovered later (timestamp 5). -/
def tieTargetLate : CollectionTarget :=
  { id := "news_techcabal.com_5", url := "https://techcabal.example/a",
    content_type := .news_article, priority := .medium,
    source_collector := .news_monitoring, discovered_at := 5 }

/-- A MEDIUM-priority target discovered earlier (timestamp 3). -/
def tieTargetEarly : CollectionTarget :=
  { id := "news_techcabal.com_3", url := "https://techcabal.example/b",
    content_type := .news_article, priority := .medium,
    source_collector := .news_monitoring, discovered_at := 3 }

/-- Counterexample to C5: the simplified `_prioritize_targets` (one of the two
cited implementations) keeps two equal-rank targets in input order, so the
later-discovered target (timestamp 5) precedes the earlier one (timestamp 3) —
the claimed `discovered_at` tie-break fails for adjacent equal-rank pairs. -/
theorem prioritize_counterexample :
    SimpleOrchestrator._prioritize_targets [tieTargetLate, tieTargetEarly] =
      [tieTargetLate, tieTargetEarly]
    ∧ priority_order tieTargetLate.priority =
        priority_order tieTargetEarly.priority
    ∧ tieTargetEarly.discovered_at < tieTargetLate.discovered_at := by
  refine ⟨by decide, by decide, by decide⟩

/-- Witness for C5 (amended): on a concrete two-target tie the full
prioritizer emits the earlier-discovered target first, and the adjacent pair
satisfies both inequalities. -/
theorem prioritize_targets_corrected_witness :
    priority_order tieTargetEarly.priority ≤ priority_order tieTargetLate.priority
    ∧ (priority_order tieTargetEarly.priority =
          priority_order tieTargetLate.priority →
        tieTargetEarly.discovered_at ≤ tieTargetLate.discovered_at) :=
  (prioritize_targets_corrected 10 [tieTargetLate, tieTargetEarly]).2.2.2.1
    0 tieTargetEarly tieTargetLate (by decide) (by decide)

end TaifaFiala

namespace TaifaFiala

/-- Every survivor of the dedup pass comes from the input and its id was not
previously seen. -/
theorem mergeDedupGo_mem :
    ∀ (l : List CollectionTarget) (seen : List String) (u : CollectionTarget),
      u ∈ mergeDedupGo seen l → u ∈ l ∧ u.id ∉ seen := by
  intro l
  induction l with
  | nil => intro seen u hu; simp [mergeDedupGo] at hu
  | cons t rest ih =>
    intro seen u hu
    simp only [mergeDedupGo] at hu
    by_cases hc : seen.contains t.id = true
    · rw [if_pos hc] at hu
      obtain ⟨h1, h2⟩ := ih seen u hu
      exact ⟨List.mem_cons_of_mem t h1, h2⟩
    · rw [if_neg hc] at hu
      rcases List.mem_cons.mp hu with rfl | hrest
      · refine ⟨List.mem_cons_self _ _, ?_⟩
        intro hmem
        exact hc (List.elem_iff.mpr hmem)
      · obtain ⟨h1, h2⟩ := ih (t.id :: seen) u hrest
        exact ⟨List.mem_cons_of_mem t h1,
          fun hmem => h2 (List.mem_cons_of_mem _ hmem)⟩

/-- The dedup pass emits pairwise-distinct ids. -/
theorem mergeDedupGo_ids_nodup :
    ∀ (l : List CollectionTarget) (seen : List String),
      ((mergeDedupGo seen l).map (fun t => t.id)).Nodup := by
  intro l
  induction l with
  | nil => intro seen; simp [mergeDedupGo]
  | cons t rest ih =>
    intro seen
    simp only [mergeDedupGo]
    by_cases hc : seen.contains t.id = true
    · rw [if_pos hc]
      exact ih seen
    · rw [if_neg hc]
      simp only [List.map_cons, List.nodup_cons]
      refine ⟨?_, ih (t.id :: seen)⟩
      intro hmem
      obtain ⟨u, hu, huid⟩ := List.mem_map.mp hmem
      have := (mergeDedupGo_mem rest (t.id :: seen) u hu).2
      exact this (huid ▸ List.mem_cons_self _ _)

/-- Every survivor is the first input element carrying its id. -/
theorem mergeDedupGo_find :
    ∀ (l : List CollectionTarget) (seen : List String) (u : CollectionTarget),
      u ∈ mergeDedupGo seen l →
      l.find? (fun v => v.id == u.id) = some u := by
  intro l
  induction l with
  | nil => intro seen u hu; simp [mergeDedupGo] at hu
  | cons t rest ih =>
    intro seen u hu
    simp only [mergeDedupGo] at hu
    by_cases hc : seen.contains t.id = true
    · rw [if_pos hc] at hu
      have hne : (t.id == u.id) = false := by
        have huseen := (mergeDedupGo_mem rest seen u hu).2
        have htseen : t.id ∈ seen := List.elem_iff.mp hc
        simp only [beq_eq_false_iff_ne, ne_eq]
        intro heq
        exact huseen (heq ▸ htseen)
      simp only [List.find?_cons, hne]
      exact ih seen u hu
    · rw [if_neg hc] at hu
      rcases List.mem_cons.mp hu with rfl | hrest
      · simp [List.find?_cons]
      · have hne : (t.id == u.id) = false := by
          have huseen := (mergeDedupGo_mem rest (t.id :: seen) u hrest).2
          simp only [beq_eq_false_iff_ne, ne_eq]
          intro heq
          exact huseen (heq ▸ List.mem_cons_self _ _)
        simp only [List.find?_cons, hne]
        exact ih (t.id :: seen) u hrest

/-- Every input target whose id is not yet seen is represented in the dedup
output by a survivor with the same id. -/
theorem mergeDedupGo_covers :
    ∀ (l : List CollectionTarget) (seen : List String) (t : CollectionTarget),
      t ∈ l → t.id ∉ seen →
      ∃ u, u ∈ mergeDedupGo seen l ∧ u.id = t.id := by
  intro l
  induction l with
  | nil => intro seen t ht _; simp at ht
  | cons x rest ih =>
    intro seen t ht hseen
    simp only [mergeDedupGo]
    by_cases hc : seen.contains x.id = true
    · rw [if_pos hc]
      rcases List.mem_cons.mp ht with rfl | hrest
      · exact absurd (List.elem_iff.mp hc) hseen
      · exact ih seen t hrest hseen
    · rw [if_neg hc]
      rcases List.mem_cons.mp ht with rfl | hrest
      · exact ⟨t, List.mem_cons_self _ _, rfl⟩
      · by_cases hid : t.id = x.id
        · exact ⟨x, List.mem_cons_self _ _, hid.symm⟩
        · obtain ⟨u, hu, huid⟩ := ih (x.id :: seen) t hrest
            (by
              intro hmem
              rcases List.mem_cons.mp hmem with heq | hmem2
              · exact hid heq
              · exact hseen hmem2)
          exact ⟨u, List.mem_cons_of_mem x hu, huid⟩

/-- C6: the merge/dedup step keeps, for each synthetic id, exactly the
first-seen target: surviving ids are pairwise distinct (so the number of
distinct ids equals the output length), every survivor is the first input
element with its id, and every input id is represented. -/
theorem merge_dedup_first_wins (l : List CollectionTarget) :
    ((mergeDedupTargets l).map (fun t => t.id)).Nodup
    ∧ ((mergeDedupTargets l).map (fun t => t.id)).dedup.length =
        (mergeDedupTargets l).length
    ∧ (∀ u ∈ mergeDedupTargets l, u ∈ l)
    ∧ (∀ u ∈ mergeDedupTargets l,
        l.find? (fun v => v.id == u.id) = some u)
    ∧ (∀ t ∈ l, ∃ u, u ∈ mergeDedupTargets l ∧ u.id = t.id) := by
  have hnodup : ((mergeDedupTargets l).map (fun t => t.id)).Nodup :=
    mergeDedupGo_ids_nodup l []
  refine ⟨hnodup, ?_, ?_, ?_, ?_⟩
  · rw [List.dedup_eq_self.mpr hnodup, List.length_map]
  · intro u hu
    exact (mergeDedupGo_mem l [] u hu).1
  · intro u hu
    exact mergeDedupGo_find l [] u hu
  · intro t ht
    exact mergeDedupGo_covers l [] t ht (by simp)

/-- The first-discovered target for the duplicated id. -/
def dupTargetFirst : CollectionTarget :=
  { id := "github_acme_ai-tool", url := "https://github.com/acme/ai-tool",
    content_type := .github_repository, priority := .medium,
    source_collector := .innovation_discovery, discovered_at := 1 }

/-- A later duplicate carrying the same synthetic id. -/
def dupTargetSecond : CollectionTarget :=
  { id := "github_acme_ai-tool", url := "https://github.com/acme/ai-tool/tree/main",
    content_type := .github_repository, priority := .high,
    source_collector := .news_monitoring, discovered_at := 2 }

/-- A target with a fresh id. -/
def dupTargetOther : CollectionTarget :=
  { id := "startup_zindi.africa", url := "https://zindi.africa",
    content_type := .startup_profile, priority := .medium,
    source_collector := .innovation_discovery, discovered_at := 3 }

/-- Witness for C6: on a concrete batch with one duplicated id the dedup
output is the two first occurrences, its ids are distinct, and the survivor of
the duplicated id is the first-discovered target. -/
theorem merge_dedup_first_wins_witness :
    mergeDedupTargets [dupTargetFirst, dupTargetSecond, dupTargetOther] =
      [dupTargetFirst, dupTargetOther]
    ∧ List.find? (fun v => v.id == dupTargetFirst.id)
        [dupTargetFirst, dupTargetSecond, dupTargetOther] = some dupTargetFirst :=
  ⟨by decide,
   (merge_dedup_first_wins
      [dupTargetFirst, dupTargetSecond, dupTargetOther]).2.2.2.1
     dupTargetFirst (by decide)⟩

end TaifaFiala

namespace TaifaFiala

/-- Looking up the head key of an association list. -/
theorem lookup_cons_eq_key (k : String) (b : ContactVal)
    (d : List (String × ContactVal)) :
    List.lookup k ((k, b) :: d) = some b := by
  simp [List.lookup]

/-- Lookup skips a head entry with a different key. -/
theorem lookup_cons_ne_key (k a : String) (b : ContactVal)
    (d : List (String × ContactVal)) (h : k ≠ a) :
    List.lookup k ((a, b) :: d) = List.lookup k d := by
  simp [List.lookup, beq_eq_false_iff_ne.mpr h]

/-- After a dict assignment, looking the key up yields the assigned value. -/
theorem lookup_dictSet (k : String) (v : ContactVal) :
    ∀ d : List (String × ContactVal), (dictSet d k v).lookup k = some v := by
  intro d
  induction d with
  | nil => simp [dictSet, List.lookup]
  | cons kv d ih =>
    obtain ⟨a, b⟩ := kv
    by_cases hk : a = k
    · subst hk
      have hany : (((a, b) :: d).any (fun kv => kv.1 == a)) = true := by simp
      rw [dictSet, if_pos hany, List.map_cons]
      have hhead : (if ((a, b) : String × ContactVal).1 == a then (a, v)
          else (a, b)) = (a, v) := by simp
      rw [hhead, lookup_cons_eq_key]
    · have hk2 : k ≠ a := fun h => hk h.symm
      have hk3 : (((a, b) : String × ContactVal).1 == k) = false := by
        simpa using hk
      by_cases hd : (d.any (fun kv => kv.1 == k)) = true
      · have hany : (((a, b) :: d).any (fun kv => kv.1 == k)) = true := by
          simp [List.any_cons, hd]
        rw [dictSet, if_pos hany, List.map_cons]
        have hhead : (if ((a, b) : String × ContactVal).1 == k then (k, v)
            else (a, b)) = (a, b) := by simp [hk3]
        rw [hhead, lookup_cons_ne_key k a b _ hk2]
        have h0 := ih
        rw [dictSet, if_pos hd] at h0
        exact h0
      · have hany : (((a, b) :: d).any (fun kv => kv.1 == k)) = false := by
          simp only [List.any_cons, Bool.or_eq_false_iff]
          exact ⟨hk3, Bool.eq_false_iff.mpr hd⟩
        rw [dictSet, if_neg (by simp [hany]), List.cons_append,
          lookup_cons_ne_key k a b _ hk2]
        have h0 := ih
        rw [dictSet, if_neg (by simpa using hd)] at h0
        exact h0

/-- Re-keying the `k'` entries of an association list is invisible to a lookup
under a different key. -/
theorem lookup_map_setKey (k k' : String) (v : ContactVal) (hne : k ≠ k') :
    ∀ d : List (String × ContactVal),
      (d.map (fun kv => if kv.1 == k' then (k', v) else kv)).lookup k =
        d.lookup k := by
  intro d
  induction d with
  | nil => rfl
  | cons kv d ih =>
    obtain ⟨a, b⟩ := kv
    by_cases ha : a = k'
    · subst ha
      have hhead : (if ((a, b) : String × ContactVal).1 == a then (a, v)
          else (a, b)) = (a, v) := by simp
      rw [List.map_cons, hhead, lookup_cons_ne_key k a v _ hne,
        lookup_cons_ne_key k a b _ hne]
      exact ih
    · have hhead : (if ((a, b) : String × ContactVal).1 == k' then (k', v)
          else (a, b)) = (a, b) := by simp [ha]
      rw [List.map_cons, hhead]
      by_cases hka : k = a
      · subst hka
        rw [lookup_cons_eq_key, lookup_cons_eq_key]
      · rw [lookup_cons_ne_key k a b _ hka, lookup_cons_ne_key k a b _ hka]
        exact ih

/-- Appending an entry under a different key is invisible to a lookup. -/
theorem lookup_append_ne (k k' : String) (v : ContactVal) (hne : k ≠ k') :
    ∀ d : List (String × ContactVal),
      (d ++ [(k', v)]).lookup k = d.lookup k := by
  intro d
  induction d with
  | nil => simp [List.lookup, beq_eq_false_iff_ne.mpr hne]
  | cons kv d ih =>
    obtain ⟨a, b⟩ := kv
    rw [List.cons_append]
    by_cases hka : k = a
    · subst hka
      rw [lookup_cons_eq_key, lookup_cons_eq_key]
    · rw [lookup_cons_ne_key k a b _ hka, lookup_cons_ne_key k a b _ hka]
      exact ih

/-- A dict assignment under a different key leaves a lookup unchanged. -/
theorem lookup_dictSet_ne (k k' : String) (v : ContactVal) (hne : k ≠ k')
    (d : List (String × ContactVal)) :
    (dictSet d k' v).lookup k = d.lookup k := by
  rw [dictSet]
  by_cases hd : (d.any (fun kv => kv.1 == k')) = true
  · rw [if_pos hd]
    exact lookup_map_setKey k k' v hne d
  · rw [if_neg hd]
    exact lookup_append_ne k k' v hne d

end TaifaFiala

namespace TaifaFiala

/-- A result that already carries an email contact before the merge. -/
def emailOverwriteResult : InnovationExtractionResult :=
  { url := "https://merge.example", content_type := .startup_profile,
    contact_information := [("email", ContactVal.pyStr "old@x.example")] }

/-- Pattern data carrying a freshly extracted email. -/
def emailPatternData : PatternData :=
  { emails := some ["new@y.example"] }

/-- Counterexample to C7: both `_merge_pattern_data` implementations assign
the `email` contact subfield unconditionally whenever the pattern data has
extracted emails, so a non-empty `contact_information` field is changed by the
merge — pattern data does not only fill empty fields. -/
theorem merge_pattern_counterexample :
    emailOverwriteResult.contact_information ≠ []
    ∧ (PerplexityAfricanAI._merge_pattern_data emailOverwriteResult
        emailPatternData).contact_information =
        [("email", ContactVal.pyStr "new@y.example")]
    ∧ (PerplexityAfricanAI._merge_pattern_data emailOverwriteResult
        emailPatternData).contact_information ≠
        emailOverwriteResult.contact_information
    ∧ (EnhancedCrawl4AI._merge_pattern_data emailOverwriteResult
        emailPatternData).contact_information ≠
        emailOverwriteResult.contact_information := by
  refine ⟨by decide, by decide, by decide, by decide⟩

/-- C7 (amended): the pattern merge never touches the structured fields
(title, description, type, problem, technical, creators, organization,
use cases, funding sources) and fills `funding_amounts` and `location` only
when they are empty; but the `email` contact subfield is assigned
unconditionally whenever the pattern data contains emails (overwriting any
existing value, in both implementations), and the perplexity version appends
every extracted URL to `source_links`. -/
theorem merge_pattern_corrected (r : InnovationExtractionResult)
    (p : PatternData) :
    ((PerplexityAfricanAI._merge_pattern_data r p).title = r.title
      ∧ (PerplexityAfricanAI._merge_pattern_data r p).description = r.description
      ∧ (PerplexityAfricanAI._merge_pattern_data r p).innovation_type =
          r.innovation_type
      ∧ (PerplexityAfricanAI._merge_pattern_data r p).problem_solved =
          r.problem_solved
      ∧ (PerplexityAfricanAI._merge_pattern_data r p).technical_approach =
          r.technical_approach
      ∧ (PerplexityAfricanAI._merge_pattern_data r p).development_stage =
          r.development_stage
      ∧ (PerplexityAfricanAI._merge_pattern_data r p).technical_stack =
          r.technical_stack
      ∧ (PerplexityAfricanAI._merge_pattern_data r p).creators = r.creators
      ∧ (PerplexityAfricanAI._merge_pattern_data r p).organization_affiliation =
          r.organization_affiliation
      ∧ (PerplexityAfricanAI._merge_pattern_data r p).use_cases = r.use_cases
      ∧ (PerplexityAfricanAI._merge_pattern_data r p).funding_sources =
          r.funding_sources)
    ∧ ((EnhancedCrawl4AI._merge_pattern_data r p).title = r.title
      ∧ (EnhancedCrawl4AI._merge_pattern_data r p).description = r.description
      ∧ (EnhancedCrawl4AI._merge_pattern_data r p).source_links = r.source_links)
    ∧ (r.funding_amounts ≠ [] →
        (PerplexityAfricanAI._merge_pattern_data r p).funding_amounts =
          r.funding_amounts
        ∧ (EnhancedCrawl4AI._merge_pattern_data r p).funding_amounts =
          r.funding_amounts)
    ∧ (optStrTruthy r.location = true →
        (PerplexityAfricanAI._merge_pattern_data r p).location = r.location
        ∧ (EnhancedCrawl4AI._merge_pattern_data r p).location = r.location)
    ∧ (∀ es, p.emails = some es →
        ((PerplexityAfricanAI._merge_pattern_data r p).contact_information).lookup
            "email" =
          some (match es.head? with
                | some e => ContactVal.pyStr e
                | Option.none => ContactVal.pyNone)
        ∧ ((EnhancedCrawl4AI._merge_pattern_data r p).contact_information).lookup
            "email" =
          some (match es.head? with
                | some e => ContactVal.pyStr e
                | Option.none => ContactVal.pyNone))
    ∧ (∀ us, p.urls = some us →
        (PerplexityAfricanAI._merge_pattern_data r p).source_links =
          r.source_links ++ us) := by
  refine ⟨?_, ?_, ?_, ?_, ?_, ?_⟩
  · refine ⟨rfl, rfl, rfl, rfl, rfl, rfl, rfl, rfl, rfl, rfl, rfl⟩
  · refine ⟨rfl, rfl, rfl⟩
  · intro h
    have hfa : r.funding_amounts.isEmpty = false := by
      cases hcase : r.funding_amounts
      · exact absurd hcase h
      · rfl
    constructor <;> cases hp : p.funding_amounts <;>
      simp [PerplexityAfricanAI._merge_pattern_data,
        EnhancedCrawl4AI._merge_pattern_data, hp, hfa]
  · intro h
    constructor <;> cases hp : p.african_locations <;>
      simp [PerplexityAfricanAI._merge_pattern_data,
        EnhancedCrawl4AI._merge_pattern_data, hp, h]
  · intro es hes
    constructor
    · simp only [PerplexityAfricanAI._merge_pattern_data, hes]
      cases hg : p.github_repos <;> cases hl : p.linkedin_profiles <;>
        simp only []
      · exact lookup_dictSet "email" _ r.contact_information
      · rw [lookup_dictSet_ne "email" "linkedin" _ (by decide)]
        exact lookup_dictSet "email" _ r.contact_information
      · rw [lookup_dictSet_ne "email" "github" _ (by decide)]
        exact lookup_dictSet "email" _ r.contact_information
      · rw [lookup_dictSet_ne "email" "linkedin" _ (by decide),
          lookup_dictSet_ne "email" "github" _ (by decide)]
        exact lookup_dictSet "email" _ r.contact_information
    · simp only [EnhancedCrawl4AI._merge_pattern_data, hes]
      exact lookup_dictSet "email" _ r.contact_information
  · intro us hus
    simp [PerplexityAfricanAI._merge_pattern_data, hus]

/-- A result with location and funding amounts already present. -/
def mergeFilledResult : InnovationExtractionResult :=
  { url := "https://filled.example", content_type := .startup_profile,
    location := some "Lagos, Nigeria", funding_amounts := ["$1M seed"] }

/-- Pattern data trying to refill already-present fields plus a fresh email. -/
def mergeFillPatternData : PatternData :=
  { emails := some ["contact@filled.example"],
    funding_amounts := some ["$9M"], african_locations := some ["Kenya"] }

/-- Witness for C7 (amended): on a concrete filled result the merge preserves
`location` and `funding_amounts`, while the `email` subfield is set to the
extracted email. -/
theorem merge_pattern_corrected_witness :
    (PerplexityAfricanAI._merge_pattern_data mergeFilledResult
        mergeFillPatternData).location = mergeFilledResult.location
    ∧ (PerplexityAfricanAI._merge_pattern_data mergeFilledResult
        mergeFillPatternData).funding_amounts = mergeFilledResult.funding_amounts
    ∧ ((PerplexityAfricanAI._merge_pattern_data mergeFilledResult
        mergeFillPatternData).contact_information).lookup "email" =
        some (ContactVal.pyStr "contact@filled.example") :=
  ⟨((merge_pattern_corrected mergeFilledResult mergeFillPatternData).2.2.2.1
      (by decide)).1,
   ((merge_pattern_corrected mergeFilledResult mergeFillPatternData).2.2.1
      (by decide)).1,
   ((merge_pattern_corrected mergeFilledResult mergeFillPatternData).2.2.2.2.1
      ["contact@filled.example"] rfl).1⟩

end TaifaFiala

namespace TaifaFiala

/-- Membership in a conditional singleton flag list. -/
theorem mem_if_singleton (a b : String) (c : Bool) :
    a ∈ (if c then [b] else ([] : List String)) ↔ (c = true ∧ a = b) := by
  cases c <;> simp

/-- A result with title, description, location and technical detail present
but no contact channel. -/
def flagsMissingContactResult : InnovationExtractionResult :=
  { url := "https://flags.example", content_type := .startup_profile,
    title := some "T", description := some "D", location := some "Kenya",
    technical_approach := some "CNN model" }

/-- Counterexample to C8: on a result with no contact channel populated, the
six-flag behavior the claim describes produces exactly the
missing-contact flag, but the enhanced_crawl4ai.py generator (one of the two
cited implementations) produces no flag at all — it implements only the first
three of the six conditions. -/
theorem validation_flags_counterexample :
    EnhancedCrawl4AI._generate_validation_flags flagsMissingContactResult = []
    ∧ specValidationFlags flagsMissingContactResult =
        ["No contact information found - outreach may be difficult"]
    ∧ PerplexityAfricanAI._generate_validation_flags flagsMissingContactResult ≠
        EnhancedCrawl4AI._generate_validation_flags flagsMissingContactResult := by
  refine ⟨by decide, by decide, by decide⟩

/-- C8 (amended): the perplexity_african_ai.py generator produces exactly the
six claimed absence-driven flags (each present iff its condition holds, and
nothing else); the enhanced_crawl4ai.py generator produces only the first
three (missing title / description / location) and never emits the contact,
funding or technical-detail flags. -/
theorem validation_flags_corrected (r : InnovationExtractionResult) :
    PerplexityAfricanAI._generate_validation_flags r = specValidationFlags r
    ∧ ("Missing title - manual verification needed" ∈
        PerplexityAfricanAI._generate_validation_flags r ↔
        optStrTruthy r.title = false)
    ∧ ("Missing description - may need additional sources" ∈
        PerplexityAfricanAI._generate_validation_flags r ↔
        optStrTruthy r.description = false)
    ∧ ("No African location identified - verify geographic relevance" ∈
        PerplexityAfricanAI._generate_validation_flags r ↔
        optStrTruthy r.location = false)
    ∧ ("No contact information found - outreach may be difficult" ∈
        PerplexityAfricanAI._generate_validation_flags r ↔
        contactInfoPopulated r = false)
    ∧ ("Funding amounts mentioned without sources - verify claims" ∈
        PerplexityAfricanAI._generate_validation_flags r ↔
        (r.funding_amounts ≠ [] ∧ r.funding_sources = []))
    ∧ ("Limited technical details - may need deeper investigation" ∈
        PerplexityAfricanAI._generate_validation_flags r ↔
        (optStrTruthy r.technical_approach = false ∧ r.technical_stack = []))
    ∧ (∀ f ∈ PerplexityAfricanAI._generate_validation_flags r,
        f ∈ ["Missing title - manual verification needed",
             "Missing description - may need additional sources",
             "No African location identified - verify geographic relevance",
             "No contact information found - outreach may be difficult",
             "Funding amounts mentioned without sources - verify claims",
             "Limited technical details - may need deeper investigation"])
    ∧ ("Missing title - manual verification needed" ∈
        EnhancedCrawl4AI._generate_validation_flags r ↔
        optStrTruthy r.title = false)
    ∧ ("No contact information found - outreach may be difficult" ∉
        EnhancedCrawl4AI._generate_validation_flags r)
    ∧ ("Funding amounts mentioned without sources - verify claims" ∉
        EnhancedCrawl4AI._generate_validation_flags r)
    ∧ ("Limited technical details - may need deeper investigation" ∉
        EnhancedCrawl4AI._generate_validation_flags r) := by
  refine ⟨rfl, ?_, ?_, ?_, ?_, ?_, ?_, ?_, ?_, ?_, ?_, ?_⟩
  · simp [PerplexityAfricanAI._generate_validation_flags, mem_if_singleton]
  · simp [PerplexityAfricanAI._generate_validation_flags, mem_if_singleton]
  · simp [PerplexityAfricanAI._generate_validation_flags, mem_if_singleton]
  · simp [PerplexityAfricanAI._generate_validation_flags, mem_if_singleton]
  · simp [PerplexityAfricanAI._generate_validation_flags, mem_if_singleton,
      List.isEmpty_iff, List.isEmpty_eq_false]
  · simp [PerplexityAfricanAI._generate_validation_flags, mem_if_singleton,
      List.isEmpty_iff]
  · intro f hf
    simp only [PerplexityAfricanAI._generate_validation_flags,
      List.mem_append, mem_if_singleton] at hf
    rcases hf with ((((h | h) | h) | h) | h) | h <;> simp [h.2]
  · simp [EnhancedCrawl4AI._generate_validation_flags, mem_if_singleton]
  · simp [EnhancedCrawl4AI._generate_validation_flags, mem_if_singleton]
  · simp [EnhancedCrawl4AI._generate_validation_flags, mem_if_singleton]
  · simp [EnhancedCrawl4AI._generate_validation_flags, mem_if_singleton]

/-- Witness for C8 (amended): the missing-contact flag produced on the
concrete no-contact result is one of the six documented flags. -/
theorem validation_flags_corrected_witness :
    "No contact information found - outreach may be difficult" ∈
      ["Missing title - manual verification needed",
       "Missing description - may need additional sources",
       "No African location identified - verify geographic relevance",
       "No contact information found - outreach may be difficult",
       "Funding amounts mentioned without sources - verify claims",
       "Limited technical details - may need deeper investigation"] :=
  (validation_flags_corrected flagsMissingContactResult).2.2.2.2.2.2.2.1
    "No contact information found - outreach may be difficult" (by decide)

end TaifaFiala

namespace TaifaFiala

/-- C9: whenever at least one cycle has completed, both stats endpoints
evaluate without a division error (`isSome`), computing the last cycle's
`success_rate` as `innovations_extracted / targets_processed` behind the
`targets_processed > 0` guard and returning 0 when `targets_processed = 0`. -/
theorem stats_success_rate_guarded
    (st : Orchestrator.OrchestratorState) (latest : CollectionCycleResult)
    (h : st.collection_history.getLast? = some latest)
    (st2 : SimpleOrchestrator.State) (latest2 : SimpleOrchestrator.CycleResult)
    (h2 : st2.collection_history.getLast? = some latest2) :
    Orchestrator.get_collection_stats st = some
      [("latest_cycle", StatVal.str latest.cycle_id),
       ("total_cycles", StatVal.nat st.collection_history.length),
       ("last_cycle_performance", StatVal.obj
          [("targets_discovered", StatVal.nat latest.targets_discovered),
           ("targets_processed", StatVal.nat latest.targets_processed),
           ("innovations_extracted", StatVal.nat latest.innovations_extracted),
           ("success_rate", StatVal.rat
              (if 0 < latest.targets_processed then
                (latest.innovations_extracted : ℚ) /
                  (latest.targets_processed : ℚ)
               else 0))]),
       ("active_targets", StatVal.nat st.active_targets.length),
       ("recommendations", StatVal.strList latest.next_cycle_recommendations)]
    ∧ (Orchestrator.get_collection_stats st).isSome = true
    ∧ (latest.targets_processed = 0 →
        (if 0 < latest.targets_processed then
          (latest.innovations_extracted : ℚ) / (latest.targets_processed : ℚ)
         else 0) = 0)
    ∧ SimpleOrchestrator.get_stats st2 = some
      [("latest_cycle_id", StatVal.str latest2.cycle_id),
       ("total_cycles", StatVal.nat st2.collection_history.length),
       ("last_performance", StatVal.obj
          [("targets_discovered", StatVal.nat latest2.targets_discovered),
           ("targets_processed", StatVal.nat latest2.targets_processed),
           ("innovations_extracted", StatVal.nat latest2.innovations_extracted),
           ("success_rate", StatVal.rat
              (if 0 < latest2.targets_processed then
                (latest2.innovations_extracted : ℚ) /
                  (latest2.targets_processed : ℚ)
               else 0))]),
       ("active_targets", StatVal.nat st2.active_targets.length),
       ("recommendations", StatVal.strList latest2.recommendations)]
    ∧ (SimpleOrchestrator.get_stats st2).isSome = true := by
  have key1 : Orchestrator.get_collection_stats st = some
      [("latest_cycle", StatVal.str latest.cycle_id),
       ("total_cycles", StatVal.nat st.collection_history.length),
       ("last_cycle_performance", StatVal.obj
          [("targets_discovered", StatVal.nat latest.targets_discovered),
           ("targets_processed", StatVal.nat latest.targets_processed),
           ("innovations_extracted", StatVal.nat latest.innovations_extracted),
           ("success_rate", StatVal.rat
              (if 0 < latest.targets_processed then
                (latest.innovations_extracted : ℚ) /
                  (latest.targets_processed : ℚ)
               else 0))]),
       ("active_targets", StatVal.nat st.active_targets.length),
       ("recommendations", StatVal.strList latest.next_cycle_recommendations)] := by
    simp only [Orchestrator.get_collection_stats, h]
    by_cases hp : 0 < latest.targets_processed
    · have hq : ((latest.targets_processed : ℚ)) ≠ 0 :=
        ne_of_gt (by exact_mod_cast hp)
      rw [if_pos hp, if_pos hp]
      simp [pyDiv, hq]
    · rw [if_neg hp, if_neg hp]
      simp
  have key2 : SimpleOrchestrator.get_stats st2 = some
      [("latest_cycle_id", StatVal.str latest2.cycle_id),
       ("total_cycles", StatVal.nat st2.collection_history.length),
       ("last_performance", StatVal.obj
          [("targets_discovered", StatVal.nat latest2.targets_discovered),
           ("targets_processed", StatVal.nat latest2.targets_processed),
           ("innovations_extracted", StatVal.nat latest2.innovations_extracted),
           ("success_rate", StatVal.rat
              (if 0 < latest2.targets_processed then
                (latest2.innovations_extracted : ℚ) /
                  (latest2.targets_processed : ℚ)
               else 0))]),
       ("active_targets", StatVal.nat st2.active_targets.length),
       ("recommendations", StatVal.strList latest2.recommendations)] := by
    simp only [SimpleOrchestrator.get_stats, h2]
    by_cases hp : 0 < latest2.targets_processed
    · have hq : ((latest2.targets_processed : ℚ)) ≠ 0 :=
        ne_of_gt (by exact_mod_cast hp)
      rw [if_pos hp, if_pos hp]
      simp [pyDiv, hq]
    · rw [if_neg hp, if_neg hp]
      simp
  refine ⟨key1, by rw [key1]; rfl, ?_, key2, by rw [key2]; rfl⟩
  intro h0
  rw [if_neg (by omega)]

/-- C10: with an empty collection history both stats endpoints return the
message-only map — its single key is "message", so none of the documented
stats keys are present. -/
theorem stats_empty_history_message_only
    (st : Orchestrator.OrchestratorState) (h : st.collection_history = [])
    (st2 : SimpleOrchestrator.State) (h2 : st2.collection_history = []) :
    Orchestrator.get_collection_stats st =
      some [("message", StatVal.str "No collection cycles completed yet")]
    ∧ (Orchestrator.get_collection_stats st).map
        (fun out => out.map Prod.fst) = some ["message"]
    ∧ SimpleOrchestrator.get_stats st2 =
      some [("message", StatVal.str "No collection cycles completed yet")]
    ∧ (SimpleOrchestrator.get_stats st2).map
        (fun out => out.map Prod.fst) = some ["message"] := by
  have key1 : Orchestrator.get_collection_stats st =
      some [("message", StatVal.str "No collection cycles completed yet")] := by
    simp [Orchestrator.get_collection_stats, h]
  have key2 : SimpleOrchestrator.get_stats st2 =
      some [("message", StatVal.str "No collection cycles completed yet")] := by
    simp [SimpleOrchestrator.get_stats, h2]
  exact ⟨key1, by rw [key1]; rfl, key2, by rw [key2]; rfl⟩

/-- A completed cycle with a non-zero number of processed targets. -/
def sampleCycle : CollectionCycleResult :=
  { cycle_id := "cycle_1", targets_discovered := 12, targets_processed := 10,
    innovations_extracted := 7 }

/-- A completed cycle of the simplified orchestrator with zero processed
targets. -/
def sampleSimpleCycle : SimpleOrchestrator.CycleResult :=
  { cycle_id := "cycle_a", targets_discovered := 3, targets_processed := 0,
    innovations_extracted := 0 }

/-- A completed cycle with zero processed targets. -/
def zeroCycle : CollectionCycleResult :=
  { cycle_id := "cycle_0", targets_discovered := 0, targets_processed := 0,
    innovations_extracted := 0 }

/-- A full-orchestrator state whose latest cycle processed zero targets. -/
def zeroStatsState : Orchestrator.OrchestratorState :=
  { collection_history := [zeroCycle] }

/-- A full-orchestrator state with one completed cycle. -/
def sampleStatsState : Orchestrator.OrchestratorState :=
  { collection_history := [sampleCycle] }

/-- A simplified-orchestrator state with one completed cycle. -/
def sampleSimpleState : SimpleOrchestrator.State :=
  { collection_history := [sampleSimpleCycle] }

/-- Witness for C9: on concrete one-cycle states (one with 10 processed
targets, one with 0) both endpoints evaluate without a division error, and the
zero-processed cycle's rate expression is 0. -/
theorem stats_success_rate_guarded_witness :
    (Orchestrator.get_collection_stats sampleStatsState).isSome = true
    ∧ (SimpleOrchestrator.get_stats sampleSimpleState).isSome = true
    ∧ (if 0 < sampleSimpleCycle.targets_processed then
        (sampleSimpleCycle.innovations_extracted : ℚ) /
          (sampleSimpleCycle.targets_processed : ℚ)
       else 0) = 0 := by
  have hmain := stats_success_rate_guarded sampleStatsState sampleCycle
    (by decide) sampleSimpleState sampleSimpleCycle (by decide)
  have hzero := stats_success_rate_guarded zeroStatsState zeroCycle
    (by decide) sampleSimpleState sampleSimpleCycle (by decide)
  exact ⟨hmain.2.1, hmain.2.2.2.2, hzero.2.2.1 rfl⟩

/-- A full-orchestrator state with no completed cycle. -/
def emptyStatsState : Orchestrator.OrchestratorState :=
  { collection_history := [] }

/-- A simplified-orchestrator state with no completed cycle. -/
def emptySimpleState : SimpleOrchestrator.State :=
  { collection_history := [] }

/-- Witness for C10: on concrete empty-history states both endpoints return
the message-only map. -/
theorem stats_empty_history_message_only_witness :
    Orchestrator.get_collection_stats emptyStatsState =
      some [("message", StatVal.str "No collection cycles completed yet")]
    ∧ SimpleOrchestrator.get_stats emptySimpleState =
      some [("message", StatVal.str "No collection cycles completed yet")] :=
  ⟨(stats_empty_history_message_only emptyStatsState rfl
      emptySimpleState rfl).1,
   (stats_empty_history_message_only emptyStatsState rfl
      emptySimpleState rfl).2.2.1⟩

end TaifaFiala
